import Mathlib

/-!
Shallow embedding of `ergo-protocol-framework/src/predicated_boxes.rs`
from the `ergo-utilities-rust` repository, together with theorems that
settle the specification claims about it.

Machine integers (`u64` box values, `i64` datapoints) are modelled as
`Nat` / `Int`; the one place where `u64` overflow can occur
(`sum_ergs_boxes_value`) takes each addition modulo `2 ^ 64`.
Fallible Rust functions returning `Result<T, BoxVerificationError>` are
modelled with `Except BoxVerificationError T`.
-/

/-- External dependency (ergo-lib `ConstantVal`): the typed constant
values held in box registers.  Only the `Long` case is inspected by this
crate; the other listed variants stand for the remaining non-`Long`
cases of the external enum. -/
inductive ConstantVal where
  | Boolean (b : Bool)
  | Byte (i : Int)
  | Short (i : Int)
  | Int (i : Int)
  | Long (i : Int)
  | ByteArray (bs : List Nat)
deriving DecidableEq

/-- External dependency (ergo-lib `Constant`): a register slot whose
constant payload is read through the field `v`. -/
structure Constant where
  v : ConstantVal
deriving DecidableEq

/-- External dependency (ergo-lib token entry): a token identifier with
its `u64` amount, the amount kept as a natural number. -/
structure Token where
  token_id : String
  amount : Nat
deriving DecidableEq, Inhabited

/-- External dependency (ergo-lib `ErgoBox`), restricted to the fields
this crate reads: `value` is the nanoErg amount (`value.as_u64()`),
`tokens` the ordered token list, and `additional_registers` the ordered
list returned by `additional_registers.get_ordered_values()`. -/
structure ErgoBox where
  value : Nat
  tokens : List Token
  additional_registers : List Constant
deriving DecidableEq

/-- External dependency (ergo-lib `UnsignedInput`): the transaction-input
representation an `ErgoBox` converts into; modelled as a record of the
source box, which is all the conversion used by this crate depends on. -/
structure UnsignedInput where
  source_box : ErgoBox
deriving DecidableEq

/-- The `.into()` conversion from `ErgoBox` to `UnsignedInput`. -/
def ErgoBox.into (b : ErgoBox) : UnsignedInput :=
  { source_box := b }

/-- The error enum `BoxVerificationError` of `predicated_boxes.rs`. -/
inductive BoxVerificationError where
  | InvalidP2SAddress
  | InvalidErgoTree
  | InvalidErgsValue (msg : String)
  | InvalidTokens (msg : String)
  | InvalidRegisters (msg : String)
  | InvalidOracleBox (msg : String)
  | OtherError (msg : String)
deriving DecidableEq

/-- The crate-local alias `Result<T> = std::result::Result<T, BoxVerificationError>`. -/
abbrev Result (T : Type) : Type :=
  Except BoxVerificationError T

/-- Modelled from the spec: the protocol-stage marker trait
`crate::stage::StageType` (its module is not among the provided
sources).  The spec describes a stage marker as a zero-payload identity
from which the stage-box constructor produces a fresh instance, so the
interface is the single constructor `new` used at line 62 of
`predicated_boxes.rs`. -/
class StageType (ST : Type) where
  new : ST

/-- The struct `StageBox<ST: StageType>`. -/
structure StageBox (ST : Type) [StageType ST] where
  ergo_box : ErgoBox
  predicate : ErgoBox → Result Unit
  stage : ST

/-- `StageBox::<ST>::new`: run the supplied predicate on the box and, on
success, wrap a clone of the box with the predicate and a fresh stage. -/
def StageBox.new {ST : Type} [StageType ST] (b : ErgoBox)
    (predicate : ErgoBox → Result Unit) (_ : ST) : Result (StageBox ST) := do
  predicate b
  pure { stage := StageType.new, predicate := predicate, ergo_box := b }

/-- `StageBox::get_box` (returns a clone of the wrapped box). -/
def StageBox.get_box {ST : Type} [StageType ST] (pb : StageBox ST) : ErgoBox :=
  pb.ergo_box

/-- The struct `ErgsBox`. -/
structure ErgsBox where
  ergo_box : ErgoBox
  predicate : ErgoBox → Result Unit

/-- `box_with_ergs_predicate`: succeed iff the box holds more than
`1000000` nanoErgs. -/
def box_with_ergs_predicate (b : ErgoBox) : Result Unit :=
  if b.value > 1000000 then
    Except.ok ()
  else
    Except.error (BoxVerificationError.InvalidErgsValue
      ("ErgoBox did not have more than 999999 nanoErgs inside."))

/-- `ErgsBox::new`: run `box_with_ergs_predicate` and, on success, wrap
a clone of the box together with the predicate. -/
def ErgsBox.new (b : ErgoBox) : Result ErgsBox := do
  box_with_ergs_predicate b
  pure { ergo_box := b, predicate := box_with_ergs_predicate }

/-- `ErgsBox::get_box` (returns a clone of the wrapped box). -/
def ErgsBox.get_box (pb : ErgsBox) : ErgoBox :=
  pb.ergo_box

/-- `sum_ergs_boxes_value`: fold of `pb.get_box().value.as_u64() + acc`
over the list, with `u64` addition taken modulo `2 ^ 64`. -/
def sum_ergs_boxes_value (boxes : List ErgsBox) : Nat :=
  boxes.foldl (fun acc pb => (pb.get_box.value + acc) % 2 ^ 64) 0

/-- `unwrap_ergs_boxes`: map each `ErgsBox` to its wrapped `ErgoBox`. -/
def unwrap_ergs_boxes (boxes : List ErgsBox) : List ErgoBox :=
  boxes.map (fun pb => pb.get_box)

/-- `ergs_boxes_to_inputs`: map each `ErgsBox` to the `UnsignedInput`
obtained from its wrapped box. -/
def ergs_boxes_to_inputs (boxes : List ErgsBox) : List UnsignedInput :=
  boxes.map (fun pb => pb.get_box.into)

/-- The struct `OracleBoxLong`. -/
structure OracleBoxLong where
  ergo_box : ErgoBox
  predicate : ErgoBox → Result Unit
  datapoint : Int

/-- `extract_long_datapoint`: error if the ordered register list is
empty, otherwise inspect the constant in register 0 and return its
payload when it is a `Long`. -/
def extract_long_datapoint (b : ErgoBox) : Result Int :=
  match b.additional_registers with
  | [] =>
    Except.error (BoxVerificationError.InvalidOracleBox
      ("No datapoint in R4."))
  | r :: _ =>
    match r.v with
    | ConstantVal.Long i => Except.ok i
    | _ =>
      Except.error (BoxVerificationError.InvalidOracleBox
        ("Value in R4 is not a Long."))

/-- `oracle_box_predicate`: first require a valid `Long` datapoint, then
require exactly one token whose amount is exactly 1. -/
def oracle_box_predicate (b : ErgoBox) : Result Unit := do
  let _ ← extract_long_datapoint b
  if b.tokens.length ≠ 1 then
    Except.error (BoxVerificationError.InvalidTokens
      ("The oracle box is required to only hold a single NFT token."))
  else if b.tokens.headI.amount ≠ 1 then
    Except.error (BoxVerificationError.InvalidTokens
      ("The oracle box is required to only hold a single NFT token."))
  else
    Except.ok ()

/-- `OracleBoxLong::new`: run the oracle predicate, re-extract the
datapoint, and wrap a clone of the box with the predicate and the
datapoint. -/
def OracleBoxLong.new (b : ErgoBox) : Result OracleBoxLong := do
  oracle_box_predicate b
  let datapoint ← extract_long_datapoint b
  pure { ergo_box := b, predicate := oracle_box_predicate, datapoint := datapoint }

/-- `OracleBoxLong::get_box` (returns a clone of the wrapped box). -/
def OracleBoxLong.get_box (pb : OracleBoxLong) : ErgoBox :=
  pb.ergo_box

/-- A concrete zero-payload stage marker, used to instantiate
stage-tagged boxes at concrete inputs. -/
structure PoolStage where
deriving DecidableEq

instance : StageType PoolStage :=
  ⟨{}⟩

/-- C1: `ErgsBox.new` succeeds exactly when the entry's value is
strictly greater than 1000000, and otherwise fails with the
`InvalidErgsValue` error; value 1000000 therefore fails and value
1000001 succeeds. -/
theorem ergsBox_new_succeeds_iff (b : ErgoBox) :
    ((∃ pb, ErgsBox.new b = Except.ok pb) ↔ 1000000 < b.value) ∧
    (¬ 1000000 < b.value →
      ErgsBox.new b = Except.error (BoxVerificationError.InvalidErgsValue
        ("ErgoBox did not have more than 999999 nanoErgs inside."))) := by
  unfold ErgsBox.new box_with_ergs_predicate
  by_cases h : 1000000 < b.value
  · simp [h]
  · simp [h]

/-- Witness for C1: the boundary values 1000000 and 1000001. -/
theorem ergsBox_new_succeeds_iff_witness :
    (ErgsBox.new { value := 1000000, tokens := [], additional_registers := [] } =
      Except.error (BoxVerificationError.InvalidErgsValue
        ("ErgoBox did not have more than 999999 nanoErgs inside."))) ∧
    (∃ pb, ErgsBox.new { value := 1000001, tokens := [], additional_registers := [] } =
      Except.ok pb) := by
  constructor
  · exact (ergsBox_new_succeeds_iff
      { value := 1000000, tokens := [], additional_registers := [] }).2 (by decide)
  · exact (ergsBox_new_succeeds_iff
      { value := 1000001, tokens := [], additional_registers := [] }).1.2 (by decide)

/-- If the register list is empty, extraction fails with the
missing-datapoint error. -/
theorem extract_long_datapoint_nil (b : ErgoBox)
    (h : b.additional_registers = []) :
    extract_long_datapoint b = Except.error
      (BoxVerificationError.InvalidOracleBox ("No datapoint in R4.")) := by
  unfold extract_long_datapoint
  rw [h]

/-- If register 0 holds a `Long`, extraction returns its payload. -/
theorem extract_long_datapoint_long (b : ErgoBox) (r : Constant) (i : Int)
    (rest : List Constant) (hr : b.additional_registers = r :: rest)
    (hv : r.v = ConstantVal.Long i) :
    extract_long_datapoint b = Except.ok i := by
  simp [extract_long_datapoint, hr, hv]

/-- If register 0 exists but does not hold a `Long`, extraction fails
with the type-mismatch error. -/
theorem extract_long_datapoint_not_long (b : ErgoBox) (r : Constant)
    (rest : List Constant) (hr : b.additional_registers = r :: rest)
    (hv : ∀ i : Int, r.v ≠ ConstantVal.Long i) :
    extract_long_datapoint b = Except.error
      (BoxVerificationError.InvalidOracleBox ("Value in R4 is not a Long.")) := by
  cases hc : r.v with
  | Long i => exact absurd hc (hv i)
  | Boolean b => simp [extract_long_datapoint, hr, hc]
  | Byte i => simp [extract_long_datapoint, hr, hc]
  | Short i => simp [extract_long_datapoint, hr, hc]
  | Int i => simp [extract_long_datapoint, hr, hc]
  | ByteArray bs => simp [extract_long_datapoint, hr, hc]

/-- An extraction error propagates through `oracle_box_predicate`. -/
theorem oracle_box_predicate_extract_error (b : ErgoBox)
    (e : BoxVerificationError) (h : extract_long_datapoint b = Except.error e) :
    oracle_box_predicate b = Except.error e := by
  unfold oracle_box_predicate
  rw [h]
  rfl

/-- With a successful extraction and exactly one token of amount 1, the
oracle predicate succeeds. -/
theorem oracle_box_predicate_ok (b : ErgoBox) (i : Int) (t : Token)
    (hx : extract_long_datapoint b = Except.ok i)
    (ht : b.tokens = [t]) (ha : t.amount = 1) :
    oracle_box_predicate b = Except.ok () := by
  unfold oracle_box_predicate
  rw [hx]
  simp [ht, ha]
  rfl

/-- With a successful extraction but a bad token shape, the oracle
predicate fails with the invalid-tokens error. -/
theorem oracle_box_predicate_bad_tokens (b : ErgoBox) (i : Int)
    (hx : extract_long_datapoint b = Except.ok i)
    (ht : b.tokens.length ≠ 1 ∨ b.tokens.headI.amount ≠ 1) :
    oracle_box_predicate b = Except.error (BoxVerificationError.InvalidTokens
      ("The oracle box is required to only hold a single NFT token.")) := by
  unfold oracle_box_predicate
  rw [hx]
  by_cases hl : b.tokens.length = 1
  · have hamt : b.tokens.headI.amount ≠ 1 := by
      rcases ht with h | h
      · exact absurd hl h
      · exact h
    simp [hl, hamt]
    rfl
  · simp [hl]
    rfl

/-- A predicate error propagates through `OracleBoxLong.new`. -/
theorem oracleBoxLong_new_pred_error (b : ErgoBox) (e : BoxVerificationError)
    (h : oracle_box_predicate b = Except.error e) :
    OracleBoxLong.new b = Except.error e := by
  unfold OracleBoxLong.new
  rw [h]
  rfl

/-- C2: for an entry holding exactly one token whose amount is 1 and
whose register 0 holds a `Long` constant, `OracleBoxLong.new` succeeds
and the stored `datapoint` field is exactly that integer. -/
theorem oracleBoxLong_new_ok (b : ErgoBox) (t : Token) (i : Int)
    (rest : List Constant) (ht : b.tokens = [t]) (ha : t.amount = 1)
    (hr : b.additional_registers = { v := ConstantVal.Long i } :: rest) :
    OracleBoxLong.new b = Except.ok
      { ergo_box := b, predicate := oracle_box_predicate, datapoint := i } := by
  have hx : extract_long_datapoint b = Except.ok i :=
    extract_long_datapoint_long b _ i rest hr rfl
  have hp : oracle_box_predicate b = Except.ok () :=
    oracle_box_predicate_ok b i t hx ht ha
  unfold OracleBoxLong.new
  rw [hp, hx]
  rfl

/-- Witness for C2: one token of amount 1 and `Long 42` in register 0. -/
theorem oracleBoxLong_new_ok_witness :
    OracleBoxLong.new
      { value := 0, tokens := [{ token_id := "nft", amount := 1 }],
        additional_registers := [{ v := ConstantVal.Long 42 }] } =
    Except.ok
      { ergo_box :=
          { value := 0, tokens := [{ token_id := "nft", amount := 1 }],
            additional_registers := [{ v := ConstantVal.Long 42 }] },
        predicate := oracle_box_predicate, datapoint := 42 } :=
  oracleBoxLong_new_ok _ { token_id := "nft", amount := 1 } 42 [] rfl rfl rfl

/-- C5: an entry with two or more tokens, or a single token of amount
different from 1, fails `OracleBoxLong` construction with the
invalid-tokens error when register 0 holds a valid `Long` datapoint. -/
theorem oracleBoxLong_new_invalid_tokens (b : ErgoBox) (i : Int)
    (rest : List Constant)
    (hr : b.additional_registers = { v := ConstantVal.Long i } :: rest)
    (ht : 2 ≤ b.tokens.length ∨ ∃ t, b.tokens = [t] ∧ t.amount ≠ 1) :
    OracleBoxLong.new b = Except.error (BoxVerificationError.InvalidTokens
      ("The oracle box is required to only hold a single NFT token.")) := by
  have hx : extract_long_datapoint b = Except.ok i :=
    extract_long_datapoint_long b _ i rest hr rfl
  have hts : b.tokens.length ≠ 1 ∨ b.tokens.headI.amount ≠ 1 := by
    rcases ht with h | ⟨t, hl, ha⟩
    · left
      omega
    · right
      rw [hl]
      exact ha
  exact oracleBoxLong_new_pred_error b _
    (oracle_box_predicate_bad_tokens b i hx hts)

/-- Witness for C5: two tokens and a valid `Long 7` datapoint. -/
theorem oracleBoxLong_new_invalid_tokens_witness :
    OracleBoxLong.new
      { value := 0,
        tokens := [{ token_id := "a", amount := 1 },
                   { token_id := "b", amount := 1 }],
        additional_registers := [{ v := ConstantVal.Long 7 }] } =
    Except.error (BoxVerificationError.InvalidTokens
      ("The oracle box is required to only hold a single NFT token.")) :=
  oracleBoxLong_new_invalid_tokens _ 7 [] rfl (Or.inl (by decide))

/-- C6: an entry with zero registers fails `OracleBoxLong` construction
with the invalid-oracle-box error citing the missing datapoint in R4. -/
theorem oracleBoxLong_new_no_registers (b : ErgoBox)
    (h : b.additional_registers = []) :
    OracleBoxLong.new b = Except.error
      (BoxVerificationError.InvalidOracleBox ("No datapoint in R4.")) :=
  oracleBoxLong_new_pred_error b _
    (oracle_box_predicate_extract_error b _ (extract_long_datapoint_nil b h))

/-- Witness for C6: a register-free entry. -/
theorem oracleBoxLong_new_no_registers_witness :
    OracleBoxLong.new
      { value := 0, tokens := [{ token_id := "nft", amount := 1 }],
        additional_registers := [] } =
    Except.error
      (BoxVerificationError.InvalidOracleBox ("No datapoint in R4.")) :=
  oracleBoxLong_new_no_registers _ rfl

/-- C7: an entry whose register 0 exists but holds a non-`Long` constant
fails `OracleBoxLong` construction with the type-mismatch message,
whatever its tokens are: the extraction check is decided before the
token-shape check. -/
theorem oracleBoxLong_new_non_long (b : ErgoBox) (r : Constant)
    (rest : List Constant) (hr : b.additional_registers = r :: rest)
    (hv : ∀ i : Int, r.v ≠ ConstantVal.Long i) :
    OracleBoxLong.new b = Except.error
      (BoxVerificationError.InvalidOracleBox ("Value in R4 is not a Long.")) :=
  oracleBoxLong_new_pred_error b _
    (oracle_box_predicate_extract_error b _
      (extract_long_datapoint_not_long b r rest hr hv))

/-- Witness for C7: an `Int` constant in register 0 together with a
perfectly valid single-NFT token list. -/
theorem oracleBoxLong_new_non_long_witness :
    OracleBoxLong.new
      { value := 0, tokens := [{ token_id := "nft", amount := 1 }],
        additional_registers := [{ v := ConstantVal.Int 9 }] } =
    Except.error
      (BoxVerificationError.InvalidOracleBox ("Value in R4 is not a Long.")) :=
  oracleBoxLong_new_non_long _ { v := ConstantVal.Int 9 } [] rfl
    (fun _ h => ConstantVal.noConfusion h)

/-- C10: whenever `oracle_box_predicate` succeeds on an entry,
`extract_long_datapoint` succeeds on it as well, so the second,
error-propagating extraction call inside `OracleBoxLong.new` can never
take its error branch after the predicate check has passed. -/
theorem oracle_box_predicate_implies_extract (b : ErgoBox)
    (h : oracle_box_predicate b = Except.ok ()) :
    ∃ i, extract_long_datapoint b = Except.ok i := by
  cases hx : extract_long_datapoint b with
  | ok i => exact ⟨i, rfl⟩
  | error e =>
    rw [oracle_box_predicate_extract_error b e hx] at h
    exact Except.noConfusion h

/-- Witness for C10: a box passing the oracle predicate. -/
theorem oracle_box_predicate_implies_extract_witness :
    ∃ i, extract_long_datapoint
      { value := 0, tokens := [{ token_id := "nft", amount := 1 }],
        additional_registers := [{ v := ConstantVal.Long 3 }] } =
      Except.ok i :=
  oracle_box_predicate_implies_extract _ rfl

/-- C3: when the supplied predicate fails on the entry, `StageBox.new`
returns the predicate's error itself, unchanged. -/
theorem stageBox_new_propagates_error {ST : Type} [StageType ST]
    (b : ErgoBox) (p : ErgoBox → Result Unit) (st : ST)
    (e : BoxVerificationError) (h : p b = Except.error e) :
    StageBox.new b p st = Except.error e := by
  unfold StageBox.new
  rw [h]
  rfl

/-- Witness for C3: a predicate failing with a distinctive error. -/
theorem stageBox_new_propagates_error_witness :
    StageBox.new { value := 0, tokens := [], additional_registers := [] }
      (fun _ => Except.error (BoxVerificationError.OtherError ("boom")))
      PoolStage.mk =
    Except.error (BoxVerificationError.OtherError ("boom")) :=
  stageBox_new_propagates_error _ _ _ _ rfl

/-- C4: when the supplied predicate succeeds on the entry,
`StageBox.new` returns the wrapper holding that predicate, a snapshot of
the entry, and a fresh instance of the stage marker. -/
theorem stageBox_new_ok {ST : Type} [StageType ST] (b : ErgoBox)
    (p : ErgoBox → Result Unit) (st : ST) (h : p b = Except.ok ()) :
    StageBox.new b p st = Except.ok
      { ergo_box := b, predicate := p, stage := StageType.new } := by
  unfold StageBox.new
  rw [h]
  rfl

/-- Witness for C4: an always-succeeding predicate. -/
theorem stageBox_new_ok_witness :
    StageBox.new { value := 5, tokens := [], additional_registers := [] }
      (fun _ => Except.ok ()) PoolStage.mk =
    Except.ok
      { ergo_box := { value := 5, tokens := [], additional_registers := [] },
        predicate := fun _ => Except.ok (), stage := StageType.new } :=
  stageBox_new_ok _ _ _ rfl

/-- The fold underlying `sum_ergs_boxes_value` computes the exact sum
whenever that exact sum stays below `2 ^ 64`. -/
theorem sum_fold_exact (boxes : List ErgsBox) (acc : Nat)
    (h : acc + (boxes.map fun pb => pb.get_box.value).sum < 2 ^ 64) :
    boxes.foldl (fun a pb => (pb.get_box.value + a) % 2 ^ 64) acc =
      acc + (boxes.map fun pb => pb.get_box.value).sum := by
  induction boxes generalizing acc with
  | nil => simp
  | cons pb rest ih =>
    simp only [List.foldl_cons, List.map_cons, List.sum_cons] at h ⊢
    have hlt : pb.get_box.value + acc < 2 ^ 64 := by omega
    rw [Nat.mod_eq_of_lt hlt, ih (pb.get_box.value + acc) (by omega)]
    ring

/-- C8: `sum_ergs_boxes_value` of the empty list is 0; whenever the
arithmetic sum of the wrapped values stays below `2 ^ 64` (which covers
every realistic ledger magnitude) the result is that exact sum, with no
silent overflow; and on boxes of values 2000000 and 3000000 it returns
5000000. -/
theorem sum_ergs_boxes_value_spec :
    sum_ergs_boxes_value [] = 0 ∧
    (∀ boxes : List ErgsBox,
      (boxes.map fun pb => pb.get_box.value).sum < 2 ^ 64 →
      sum_ergs_boxes_value boxes =
        (boxes.map fun pb => pb.get_box.value).sum) ∧
    sum_ergs_boxes_value
      [{ ergo_box := { value := 2000000, tokens := [], additional_registers := [] },
         predicate := box_with_ergs_predicate },
       { ergo_box := { value := 3000000, tokens := [], additional_registers := [] },
         predicate := box_with_ergs_predicate }] = 5000000 := by
  refine ⟨rfl, ?_, ?_⟩
  · intro boxes h
    unfold sum_ergs_boxes_value
    simpa using sum_fold_exact boxes 0 (by simpa using h)
  · rfl

/-- Witness for C8: a singleton list, well below the overflow bound. -/
theorem sum_ergs_boxes_value_spec_witness :
    sum_ergs_boxes_value
      [{ ergo_box := { value := 7000000, tokens := [], additional_registers := [] },
         predicate := box_with_ergs_predicate }] = 7000000 := by
  exact sum_ergs_boxes_value_spec.2.1 _ (by decide)

/-- C9: `unwrap_ergs_boxes` and `ergs_boxes_to_inputs` preserve the
length of the input list, and their i-th output is obtained from the
i-th input box (order-preserving maps, no deduplication). -/
theorem unwrap_and_inputs_preserve (boxes : List ErgsBox) :
    (unwrap_ergs_boxes boxes).length = boxes.length ∧
    (ergs_boxes_to_inputs boxes).length = boxes.length ∧
    (∀ i : Nat, (unwrap_ergs_boxes boxes).get? i =
      (boxes.get? i).map fun pb => pb.get_box) ∧
    (∀ i : Nat, (ergs_boxes_to_inputs boxes).get? i =
      (boxes.get? i).map fun pb => pb.get_box.into) := by
  refine ⟨?_, ?_, ?_, ?_⟩ <;>
    simp [unwrap_ergs_boxes, ergs_boxes_to_inputs]
